import Mathlib

/-!
Verification of `pkg/openshift/rosa/hcpvpc.go` from osde2e-common.

The Go file drives an external terraform runner: `createHostedControlPlaneVPC`
runs new-runner / set-env-vars / copy-template / init / plan / apply / output
(with a deferred runner uninstall installed after set-env-vars succeeds), and
`deleteHostedControlPlaneVPC` runs new-runner / set-env-vars / init / destroy
with the same deferred uninstall.  External effects (the terraform runner, the
operating system file calls) are modelled by an oracle that fixes the outcome
of each step; each workflow returns the trace of attempted steps together with
its Go return value.
-/

set_option maxHeartbeats 1000000

namespace HcpVpc

/-- The double-quote character stripped from terraform output values. -/
def quoteChar : Char := Char.ofNat 34

/-- Struct `vpc` represents the details of an aws vpc (struct `vpc` in the source). -/
structure vpc where
  privateSubnet : String
  publicSubnet : String
  nodePrivateSubnet : String
deriving DecidableEq, Repr

/-- Struct `hcpVPCError` represents the custom error (struct `hcpVPCError` in the
source); the wrapped cause is modelled by its rendered message. -/
structure hcpVPCError where
  action : String
  err : String
deriving DecidableEq, Repr

/-- Rendering of `hcpVPCError.Error()`:
`fmt.Sprintf("%s hcp cluster vpc failed: %v", h.action, h.err)`. -/
def hcpVPCError.message (h : hcpVPCError) : String :=
  h.action ++ " hcp cluster vpc failed: " ++ h.err

/-- One attempted interaction with the outside world, recorded in order.
`uninstallStep` carries the (discarded) error of the uninstall call. -/
inductive Event where
  | newRunner : Event
  | setEnvVars : Event
  | copyTemplate : String → String → Event
  | initStep : Event
  | planStep : List String → Event
  | applyStep : Event
  | outputStep : Event
  | destroyStep : List String → Event
  | uninstallStep : Option String → Event
deriving DecidableEq, Repr

/-- Whether an event is an invocation of the runner uninstall. -/
def Event.isUninstall : Event → Bool
  | .uninstallStep _ => true
  | _ => false

/-- Oracle fixing the outcome of every external step: `none` / `.ok` means the
step succeeds, `some e` / `.error e` means it fails with cause message `e`.
`FS` is the embedded asset file system (`FS.Open`), keyed by path, holding the
file bytes. `outputRes` is the terraform output: a map from output key to the
raw value bytes rendered as a string (`string(output[k].Value)`). -/
structure Oracle where
  newErr : Option String
  setEnvVarsErr : Option String
  FS : List (String × List Nat)
  osCreateErr : Option String
  ioCopyErr : Option String
  initErr : Option String
  planErr : Option String
  applyErr : Option String
  outputRes : Except String (List (String × String))
  destroyErr : Option String
  uninstallErr : Option String
deriving Repr

/-- Function `copyFile` copies the srcFile provided to the destFile: open the source
from the embedded `FS`, create the destination on disk, copy the bytes.  On
success the destination file on disk holds exactly the source bytes. -/
def copyFile (o : Oracle) (disk : List (String × List Nat))
    (srcFile destFile : String) : Except String (List (String × List Nat)) :=
  match o.FS.lookup srcFile with
  | none => .error ("error opening " ++ srcFile ++ " file: file does not exist")
  | some contents =>
    match o.osCreateErr with
    | some e => .error ("error creating runtime " ++ destFile ++ " file: " ++ e)
    | none =>
      match o.ioCopyErr with
      | some e => .error ("error copying source file to destination file: " ++ e)
      | none => .ok ((destFile, contents) :: disk)

/-- Reading a key of the terraform output map: a missing key yields the map's
zero value, whose `Value` renders as the empty string. -/
def getOutput (out : List (String × String)) (key : String) : String :=
  (out.lookup key).getD ""

/-- Model of `strings.ReplaceAll(s, quote, empty)`: every double-quote character is
removed from the string. -/
def stripQuotes (s : String) : String :=
  String.mk (s.data.filter (fun c => c ≠ quoteChar))

/-- Return value and observable effects of one `createHostedControlPlaneVPC`
call: the ordered trace of attempted external steps, the disk after the call,
and the Go result `(*vpc, error)`. -/
structure CreateResult where
  trace : List Event
  disk : List (String × List Nat)
  res : Except hcpVPCError vpc

/-- Return value and observable effects of one `deleteHostedControlPlaneVPC`
call: the ordered trace of attempted external steps and the Go result
(`error`, `.ok ()` standing for a nil error). -/
structure DeleteResult where
  trace : List Event
  res : Except hcpVPCError Unit

/-- The fixed source path of the bundled template asset. -/
def assetPath : String := "assets/setup-hcp-vpc.tf"

/-- The terraform variables passed to plan and destroy:
`aws_region=<region>` and `cluster_name=<clusterName>`. -/
def tfVars (clusterName awsRegion : String) : List String :=
  ["aws_region=" ++ awsRegion, "cluster_name=" ++ clusterName]

/-- Function `createHostedControlPlaneVPC`: validate the three parameters, construct
the runner, inject credentials, install the deferred uninstall, copy the
template into the working directory, then init / plan / apply / output; on
success populate the `vpc` from the three output keys with quotes stripped.
Every branch mirrors one return path of the Go function. -/
def createHostedControlPlaneVPC (o : Oracle) (disk : List (String × List Nat))
    (clusterName awsRegion workingDir : String) : CreateResult :=
  let action := "create"
  if clusterName = "" ∨ awsRegion = "" ∨ workingDir = "" then
    ⟨[], disk, .error ⟨action, "one or more parameters is empty"⟩⟩
  else
    match o.newErr with
    | some e =>
      ⟨[.newRunner], disk,
        .error ⟨action, "failed to construct terraform runner: " ++ e⟩⟩
    | none =>
    match o.setEnvVarsErr with
    | some e =>
      ⟨[.newRunner, .setEnvVars], disk,
        .error ⟨action,
          "failed to set terraform runner aws credentials (env vars): " ++ e⟩⟩
    | none =>
    let destFile := workingDir ++ "/setup-hcp-vpc.tf"
    let pre := [Event.newRunner, Event.setEnvVars,
      Event.copyTemplate assetPath destFile]
    match copyFile o disk assetPath destFile with
    | .error e =>
      ⟨pre ++ [.uninstallStep o.uninstallErr], disk,
        .error ⟨action, "failed to copy terraform file to working directory: " ++ e⟩⟩
    | .ok disk2 =>
    match o.initErr with
    | some e =>
      ⟨pre ++ [.initStep, .uninstallStep o.uninstallErr], disk2,
        .error ⟨action, "failed to perform terraform init: " ++ e⟩⟩
    | none =>
    match o.planErr with
    | some e =>
      ⟨pre ++ [.initStep, .planStep (tfVars clusterName awsRegion),
          .uninstallStep o.uninstallErr], disk2,
        .error ⟨action, "failed to perform terraform plan: " ++ e⟩⟩
    | none =>
    match o.applyErr with
    | some e =>
      ⟨pre ++ [.initStep, .planStep (tfVars clusterName awsRegion), .applyStep,
          .uninstallStep o.uninstallErr], disk2,
        .error ⟨action, "failed to perform terraform apply: " ++ e⟩⟩
    | none =>
    match o.outputRes with
    | .error e =>
      ⟨pre ++ [.initStep, .planStep (tfVars clusterName awsRegion), .applyStep,
          .outputStep, .uninstallStep o.uninstallErr], disk2,
        .error ⟨action, "failed to perform terraform output: " ++ e⟩⟩
    | .ok out =>
      ⟨pre ++ [.initStep, .planStep (tfVars clusterName awsRegion), .applyStep,
          .outputStep, .uninstallStep o.uninstallErr], disk2,
        .ok ⟨stripQuotes (getOutput out "cluster-private-subnet"),
             stripQuotes (getOutput out "cluster-public-subnet"),
             stripQuotes (getOutput out "node-private-subnet")⟩⟩

/-- Function `deleteHostedControlPlaneVPC`: validate the three parameters, construct
the runner, inject credentials, install the deferred uninstall, then init and
destroy (parameterized by region and cluster name).  Every branch mirrors one
return path of the Go function. -/
def deleteHostedControlPlaneVPC (o : Oracle)
    (clusterName awsRegion workingDir : String) : DeleteResult :=
  let action := "delete"
  if clusterName = "" ∨ awsRegion = "" ∨ workingDir = "" then
    ⟨[], .error ⟨action, "one or more parameters is empty"⟩⟩
  else
    match o.newErr with
    | some e =>
      ⟨[.newRunner],
        .error ⟨action, "failed to construct terraform runner: " ++ e⟩⟩
    | none =>
    match o.setEnvVarsErr with
    | some e =>
      ⟨[.newRunner, .setEnvVars],
        .error ⟨action,
          "failed to set terraform runner aws credentials (env vars): " ++ e⟩⟩
    | none =>
    match o.initErr with
    | some e =>
      ⟨[.newRunner, .setEnvVars, .initStep, .uninstallStep o.uninstallErr],
        .error ⟨action, "failed to perform terraform init: " ++ e⟩⟩
    | none =>
    match o.destroyErr with
    | some e =>
      ⟨[.newRunner, .setEnvVars, .initStep,
          .destroyStep (tfVars clusterName awsRegion),
          .uninstallStep o.uninstallErr],
        .error ⟨action, "failed to perform terraform destroy: " ++ e⟩⟩
    | none =>
      ⟨[.newRunner, .setEnvVars, .initStep,
          .destroyStep (tfVars clusterName awsRegion),
          .uninstallStep o.uninstallErr],
        .ok ()⟩



/-- Asset bytes used by the concrete sample oracles. -/
def hcpBytes : List Nat := [104, 99, 112, 10]

/-- Terraform output of the fully successful sample run: the three subnet
keys mapped to quoted CIDR values. -/
def quotedOut : List (String × String) :=
  [("cluster-private-subnet", "\"10.0.1.0/24\""),
   ("cluster-public-subnet", "\"10.0.2.0/24\""),
   ("node-private-subnet", "\"10.0.3.0/24\"")]

/-- Oracle of a fully successful run. -/
def okOracle : Oracle :=
  { newErr := none, setEnvVarsErr := none, FS := [(assetPath, hcpBytes)],
    osCreateErr := none, ioCopyErr := none, initErr := none, planErr := none,
    applyErr := none, outputRes := .ok quotedOut, destroyErr := none,
    uninstallErr := none }

/-- Oracle whose credential injection (SetEnvVars) fails. -/
def envFailOracle : Oracle := { okOracle with setEnvVarsErr := some "boom" }

/-- Oracle whose apply step fails. -/
def applyFailOracle : Oracle := { okOracle with applyErr := some "apply boom" }

/-- Oracle whose destroy step fails. -/
def destroyFailOracle : Oracle := { okOracle with destroyErr := some "destroy boom" }

/-- Oracle whose uninstall call fails (the error is discarded by the defer). -/
def uninstallFailOracle : Oracle := { okOracle with uninstallErr := some "uninstall boom" }

/-- Oracle whose output map holds none of the three subnet keys. -/
def emptyOutOracle : Oracle := { okOracle with outputRes := .ok [] }

/-- Oracle whose private-subnet output value has interior quote characters. -/
def interiorQuoteOracle : Oracle :=
  { okOracle with outputRes := .ok [("cluster-private-subnet", "\"10.\"0\".1\"")] }


/-- Helper: the result of stripping quotes never contains the quote
character, interior occurrences included. -/
theorem stripQuotes_no_quote (s : String) : quoteChar ∉ (stripQuotes s).data := by
  simp [stripQuotes]

/-- Equation: create with an empty parameter returns the tagged error with
no external step attempted. -/
theorem create_eq_empty (o : Oracle) (disk : List (String × List Nat))
    (c r w : String) (h : c = "" ∨ r = "" ∨ w = "") :
    createHostedControlPlaneVPC o disk c r w =
      ⟨[], disk, .error ⟨"create", "one or more parameters is empty"⟩⟩ := by
  unfold createHostedControlPlaneVPC
  rw [if_pos h]

/-- Equation: create when runner construction fails. -/
theorem create_eq_newErr (o : Oracle) (disk : List (String × List Nat))
    (c r w e : String) (hne : ¬(c = "" ∨ r = "" ∨ w = ""))
    (h : o.newErr = some e) :
    createHostedControlPlaneVPC o disk c r w =
      ⟨[.newRunner], disk,
        .error ⟨"create", "failed to construct terraform runner: " ++ e⟩⟩ := by
  unfold createHostedControlPlaneVPC
  rw [if_neg hne, h]

/-- Equation: create when credential injection fails. -/
theorem create_eq_envErr (o : Oracle) (disk : List (String × List Nat))
    (c r w e : String) (hne : ¬(c = "" ∨ r = "" ∨ w = ""))
    (hn : o.newErr = none) (h : o.setEnvVarsErr = some e) :
    createHostedControlPlaneVPC o disk c r w =
      ⟨[.newRunner, .setEnvVars], disk,
        .error ⟨"create",
          "failed to set terraform runner aws credentials (env vars): " ++ e⟩⟩ := by
  unfold createHostedControlPlaneVPC
  rw [if_neg hne, hn, h]

/-- Equation: create when the template copy fails; the deferred uninstall
still runs. -/
theorem create_eq_copyErr (o : Oracle) (disk : List (String × List Nat))
    (c r w e : String) (hne : ¬(c = "" ∨ r = "" ∨ w = ""))
    (hn : o.newErr = none) (hs : o.setEnvVarsErr = none)
    (hcf : copyFile o disk assetPath (w ++ "/setup-hcp-vpc.tf") = .error e) :
    createHostedControlPlaneVPC o disk c r w =
      ⟨[.newRunner, .setEnvVars,
          .copyTemplate assetPath (w ++ "/setup-hcp-vpc.tf"),
          .uninstallStep o.uninstallErr], disk,
        .error ⟨"create",
          "failed to copy terraform file to working directory: " ++ e⟩⟩ := by
  unfold createHostedControlPlaneVPC
  rw [if_neg hne, hn, hs]
  simp only [hcf]
  rfl

/-- Equation: create when init fails after a successful copy. -/
theorem create_eq_initErr (o : Oracle) (disk d2 : List (String × List Nat))
    (c r w e : String) (hne : ¬(c = "" ∨ r = "" ∨ w = ""))
    (hn : o.newErr = none) (hs : o.setEnvVarsErr = none)
    (hcf : copyFile o disk assetPath (w ++ "/setup-hcp-vpc.tf") = .ok d2)
    (hi : o.initErr = some e) :
    createHostedControlPlaneVPC o disk c r w =
      ⟨[.newRunner, .setEnvVars,
          .copyTemplate assetPath (w ++ "/setup-hcp-vpc.tf"),
          .initStep, .uninstallStep o.uninstallErr], d2,
        .error ⟨"create", "failed to perform terraform init: " ++ e⟩⟩ := by
  unfold createHostedControlPlaneVPC
  rw [if_neg hne, hn, hs]
  simp only [hcf, hi]
  rfl

/-- Equation: create when plan fails. -/
theorem create_eq_planErr (o : Oracle) (disk d2 : List (String × List Nat))
    (c r w e : String) (hne : ¬(c = "" ∨ r = "" ∨ w = ""))
    (hn : o.newErr = none) (hs : o.setEnvVarsErr = none)
    (hcf : copyFile o disk assetPath (w ++ "/setup-hcp-vpc.tf") = .ok d2)
    (hi : o.initErr = none) (hp : o.planErr = some e) :
    createHostedControlPlaneVPC o disk c r w =
      ⟨[.newRunner, .setEnvVars,
          .copyTemplate assetPath (w ++ "/setup-hcp-vpc.tf"),
          .initStep, .planStep (tfVars c r), .uninstallStep o.uninstallErr], d2,
        .error ⟨"create", "failed to perform terraform plan: " ++ e⟩⟩ := by
  unfold createHostedControlPlaneVPC
  rw [if_neg hne, hn, hs]
  simp only [hcf, hi, hp]
  rfl

/-- Equation: create when apply fails. -/
theorem create_eq_applyErr (o : Oracle) (disk d2 : List (String × List Nat))
    (c r w e : String) (hne : ¬(c = "" ∨ r = "" ∨ w = ""))
    (hn : o.newErr = none) (hs : o.setEnvVarsErr = none)
    (hcf : copyFile o disk assetPath (w ++ "/setup-hcp-vpc.tf") = .ok d2)
    (hi : o.initErr = none) (hp : o.planErr = none)
    (ha : o.applyErr = some e) :
    createHostedControlPlaneVPC o disk c r w =
      ⟨[.newRunner, .setEnvVars,
          .copyTemplate assetPath (w ++ "/setup-hcp-vpc.tf"),
          .initStep, .planStep (tfVars c r), .applyStep,
          .uninstallStep o.uninstallErr], d2,
        .error ⟨"create", "failed to perform terraform apply: " ++ e⟩⟩ := by
  unfold createHostedControlPlaneVPC
  rw [if_neg hne, hn, hs]
  simp only [hcf, hi, hp, ha]
  rfl

/-- Equation: create when the output step fails. -/
theorem create_eq_outputErr (o : Oracle) (disk d2 : List (String × List Nat))
    (c r w e : String) (hne : ¬(c = "" ∨ r = "" ∨ w = ""))
    (hn : o.newErr = none) (hs : o.setEnvVarsErr = none)
    (hcf : copyFile o disk assetPath (w ++ "/setup-hcp-vpc.tf") = .ok d2)
    (hi : o.initErr = none) (hp : o.planErr = none) (ha : o.applyErr = none)
    (ho : o.outputRes = .error e) :
    createHostedControlPlaneVPC o disk c r w =
      ⟨[.newRunner, .setEnvVars,
          .copyTemplate assetPath (w ++ "/setup-hcp-vpc.tf"),
          .initStep, .planStep (tfVars c r), .applyStep, .outputStep,
          .uninstallStep o.uninstallErr], d2,
        .error ⟨"create", "failed to perform terraform output: " ++ e⟩⟩ := by
  unfold createHostedControlPlaneVPC
  rw [if_neg hne, hn, hs]
  simp only [hcf, hi, hp, ha, ho]
  rfl

/-- Equation: create on the fully successful path. -/
theorem create_eq_ok (o : Oracle) (disk d2 : List (String × List Nat))
    (c r w : String) (out : List (String × String))
    (hne : ¬(c = "" ∨ r = "" ∨ w = ""))
    (hn : o.newErr = none) (hs : o.setEnvVarsErr = none)
    (hcf : copyFile o disk assetPath (w ++ "/setup-hcp-vpc.tf") = .ok d2)
    (hi : o.initErr = none) (hp : o.planErr = none) (ha : o.applyErr = none)
    (ho : o.outputRes = .ok out) :
    createHostedControlPlaneVPC o disk c r w =
      ⟨[.newRunner, .setEnvVars,
          .copyTemplate assetPath (w ++ "/setup-hcp-vpc.tf"),
          .initStep, .planStep (tfVars c r), .applyStep, .outputStep,
          .uninstallStep o.uninstallErr], d2,
        .ok ⟨stripQuotes (getOutput out "cluster-private-subnet"),
             stripQuotes (getOutput out "cluster-public-subnet"),
             stripQuotes (getOutput out "node-private-subnet")⟩⟩ := by
  unfold createHostedControlPlaneVPC
  rw [if_neg hne, hn, hs]
  simp only [hcf, hi, hp, ha, ho]
  rfl

/-- Equation: destroy with an empty parameter. -/
theorem delete_eq_empty (o : Oracle) (c r w : String)
    (h : c = "" ∨ r = "" ∨ w = "") :
    deleteHostedControlPlaneVPC o c r w =
      ⟨[], .error ⟨"delete", "one or more parameters is empty"⟩⟩ := by
  unfold deleteHostedControlPlaneVPC
  rw [if_pos h]

/-- Equation: destroy when runner construction fails. -/
theorem delete_eq_newErr (o : Oracle) (c r w e : String)
    (hne : ¬(c = "" ∨ r = "" ∨ w = "")) (h : o.newErr = some e) :
    deleteHostedControlPlaneVPC o c r w =
      ⟨[.newRunner],
        .error ⟨"delete", "failed to construct terraform runner: " ++ e⟩⟩ := by
  unfold deleteHostedControlPlaneVPC
  rw [if_neg hne, h]

/-- Equation: destroy when credential injection fails. -/
theorem delete_eq_envErr (o : Oracle) (c r w e : String)
    (hne : ¬(c = "" ∨ r = "" ∨ w = "")) (hn : o.newErr = none)
    (h : o.setEnvVarsErr = some e) :
    deleteHostedControlPlaneVPC o c r w =
      ⟨[.newRunner, .setEnvVars],
        .error ⟨"delete",
          "failed to set terraform runner aws credentials (env vars): " ++ e⟩⟩ := by
  unfold deleteHostedControlPlaneVPC
  rw [if_neg hne, hn, h]

/-- Equation: destroy when init fails; the deferred uninstall still runs. -/
theorem delete_eq_initErr (o : Oracle) (c r w e : String)
    (hne : ¬(c = "" ∨ r = "" ∨ w = "")) (hn : o.newErr = none)
    (hs : o.setEnvVarsErr = none) (hi : o.initErr = some e) :
    deleteHostedControlPlaneVPC o c r w =
      ⟨[.newRunner, .setEnvVars, .initStep, .uninstallStep o.uninstallErr],
        .error ⟨"delete", "failed to perform terraform init: " ++ e⟩⟩ := by
  unfold deleteHostedControlPlaneVPC
  rw [if_neg hne, hn, hs, hi]

/-- Equation: destroy when the destroy step fails. -/
theorem delete_eq_destroyErr (o : Oracle) (c r w e : String)
    (hne : ¬(c = "" ∨ r = "" ∨ w = "")) (hn : o.newErr = none)
    (hs : o.setEnvVarsErr = none) (hi : o.initErr = none)
    (hd : o.destroyErr = some e) :
    deleteHostedControlPlaneVPC o c r w =
      ⟨[.newRunner, .setEnvVars, .initStep,
          .destroyStep (tfVars c r), .uninstallStep o.uninstallErr],
        .error ⟨"delete", "failed to perform terraform destroy: " ++ e⟩⟩ := by
  unfold deleteHostedControlPlaneVPC
  rw [if_neg hne, hn, hs, hi, hd]

/-- Equation: destroy on the fully successful path. -/
theorem delete_eq_ok (o : Oracle) (c r w : String)
    (hne : ¬(c = "" ∨ r = "" ∨ w = "")) (hn : o.newErr = none)
    (hs : o.setEnvVarsErr = none) (hi : o.initErr = none)
    (hd : o.destroyErr = none) :
    deleteHostedControlPlaneVPC o c r w =
      ⟨[.newRunner, .setEnvVars, .initStep,
          .destroyStep (tfVars c r), .uninstallStep o.uninstallErr],
        .ok ()⟩ := by
  unfold deleteHostedControlPlaneVPC
  rw [if_neg hne, hn, hs, hi, hd]

/-- Helper: a successful copy writes exactly the source bytes to the
destination path on disk. -/
theorem copyFile_eq_ok (o : Oracle) (disk : List (String × List Nat))
    (src dest : String) (bs : List Nat)
    (hl : o.FS.lookup src = some bs)
    (hc : o.osCreateErr = none) (hio : o.ioCopyErr = none) :
    copyFile o disk src dest = .ok ((dest, bs) :: disk) := by
  unfold copyFile
  rw [hl, hc, hio]

/-- Helper: facts extracted from an error result of the tagged kind. -/
theorem error_inj_facts {α : Type} (a m : String) (err : hcpVPCError)
    (h : (Except.error ⟨a, m⟩ : Except hcpVPCError α) = .error err) :
    err.action = a ∧ err.message = a ++ " hcp cluster vpc failed: " ++ err.err := by
  obtain rfl := Except.error.inj h
  exact ⟨rfl, rfl⟩

/-- C1 (counterexample): a call to create whose credential injection fails
returns before the deferred uninstall is installed, so the runner cleanup is
invoked zero times, not exactly once. -/
theorem c1_cleanup_not_always_once :
    (createHostedControlPlaneVPC envFailOracle [] "osd-cluster" "us-east-1" "/tmp/w").res =
      .error ⟨"create",
        "failed to set terraform runner aws credentials (env vars): boom"⟩ ∧
    (createHostedControlPlaneVPC envFailOracle [] "osd-cluster" "us-east-1" "/tmp/w").trace.countP
      Event.isUninstall = 0 :=
  ⟨rfl, rfl⟩

/-- C1 (amended): the runner cleanup (uninstall) is invoked exactly once per
create/destroy call whenever parameter validation, runner construction and
credential injection all succeed — regardless of which later step succeeds
or fails; when validation, runner construction or credential injection
fails, cleanup is invoked zero times. -/
theorem c1_cleanup_exactly_once (o : Oracle) (disk : List (String × List Nat))
    (c r w : String) :
    (¬(c = "" ∨ r = "" ∨ w = "") → o.newErr = none → o.setEnvVarsErr = none →
      (createHostedControlPlaneVPC o disk c r w).trace.countP Event.isUninstall = 1 ∧
      (deleteHostedControlPlaneVPC o c r w).trace.countP Event.isUninstall = 1) ∧
    ((c = "" ∨ r = "" ∨ w = "") →
      (createHostedControlPlaneVPC o disk c r w).trace.countP Event.isUninstall = 0 ∧
      (deleteHostedControlPlaneVPC o c r w).trace.countP Event.isUninstall = 0) ∧
    (∀ e, ¬(c = "" ∨ r = "" ∨ w = "") → o.newErr = some e →
      (createHostedControlPlaneVPC o disk c r w).trace.countP Event.isUninstall = 0 ∧
      (deleteHostedControlPlaneVPC o c r w).trace.countP Event.isUninstall = 0) ∧
    (∀ e, ¬(c = "" ∨ r = "" ∨ w = "") → o.newErr = none → o.setEnvVarsErr = some e →
      (createHostedControlPlaneVPC o disk c r w).trace.countP Event.isUninstall = 0 ∧
      (deleteHostedControlPlaneVPC o c r w).trace.countP Event.isUninstall = 0) := by
  refine ⟨?_, ?_, ?_, ?_⟩
  · intro hne hn hs
    constructor
    · rcases hcf : copyFile o disk assetPath (w ++ "/setup-hcp-vpc.tf") with e | d2
      · rw [create_eq_copyErr o disk c r w e hne hn hs hcf]; rfl
      · rcases hi : o.initErr with _ | e
        · rcases hp : o.planErr with _ | e
          · rcases ha : o.applyErr with _ | e
            · rcases ho : o.outputRes with e | out
              · rw [create_eq_outputErr o disk d2 c r w e hne hn hs hcf hi hp ha ho]; rfl
              · rw [create_eq_ok o disk d2 c r w out hne hn hs hcf hi hp ha ho]; rfl
            · rw [create_eq_applyErr o disk d2 c r w e hne hn hs hcf hi hp ha]; rfl
          · rw [create_eq_planErr o disk d2 c r w e hne hn hs hcf hi hp]; rfl
        · rw [create_eq_initErr o disk d2 c r w e hne hn hs hcf hi]; rfl
    · rcases hi : o.initErr with _ | e
      · rcases hd : o.destroyErr with _ | e
        · rw [delete_eq_ok o c r w hne hn hs hi hd]; rfl
        · rw [delete_eq_destroyErr o c r w e hne hn hs hi hd]; rfl
      · rw [delete_eq_initErr o c r w e hne hn hs hi]; rfl
  · intro h
    rw [create_eq_empty o disk c r w h, delete_eq_empty o c r w h]
    exact ⟨rfl, rfl⟩
  · intro e hne hn
    rw [create_eq_newErr o disk c r w e hne hn, delete_eq_newErr o c r w e hne hn]
    exact ⟨rfl, rfl⟩
  · intro e hne hn hs
    rw [create_eq_envErr o disk c r w e hne hn hs, delete_eq_envErr o c r w e hne hn hs]
    exact ⟨rfl, rfl⟩

/-- Witness for C1 (amended) on a fully successful run. -/
theorem c1_cleanup_exactly_once_witness :
    (createHostedControlPlaneVPC okOracle [] "osd" "us-east-1" "/tmp").trace.countP
      Event.isUninstall = 1 ∧
    (deleteHostedControlPlaneVPC okOracle "osd" "us-east-1" "/tmp").trace.countP
      Event.isUninstall = 1 :=
  (c1_cleanup_exactly_once okOracle [] "osd" "us-east-1" "/tmp").1 (by decide) rfl rfl

/-- C2: whenever at least one of clusterName, region, workingDir is empty,
both create and destroy fail with the tagged empty-parameter error and the
trace is empty: no runner construction, no credential injection, no file
copy, and no tool step is attempted. -/
theorem c2_empty_param_rejected (o : Oracle) (disk : List (String × List Nat))
    (c r w : String) (h : c = "" ∨ r = "" ∨ w = "") :
    (createHostedControlPlaneVPC o disk c r w).res =
      .error ⟨"create", "one or more parameters is empty"⟩ ∧
    (createHostedControlPlaneVPC o disk c r w).trace = [] ∧
    (deleteHostedControlPlaneVPC o c r w).res =
      .error ⟨"delete", "one or more parameters is empty"⟩ ∧
    (deleteHostedControlPlaneVPC o c r w).trace = [] := by
  rw [create_eq_empty o disk c r w h, delete_eq_empty o c r w h]
  exact ⟨rfl, rfl, rfl, rfl⟩

/-- Witness for C2 at a concrete empty clusterName. -/
theorem c2_empty_param_rejected_witness :
    (createHostedControlPlaneVPC okOracle [] "" "us-east-1" "/tmp/w").res =
      .error ⟨"create", "one or more parameters is empty"⟩ ∧
    (createHostedControlPlaneVPC okOracle [] "" "us-east-1" "/tmp/w").trace = [] ∧
    (deleteHostedControlPlaneVPC okOracle "" "us-east-1" "/tmp/w").res =
      .error ⟨"delete", "one or more parameters is empty"⟩ ∧
    (deleteHostedControlPlaneVPC okOracle "" "us-east-1" "/tmp/w").trace = [] :=
  c2_empty_param_rejected okOracle [] "" "us-east-1" "/tmp/w" (Or.inl rfl)

/-- C3: on a successful run whose output step returns values for the three
subnet keys, create returns a vpc whose three fields are exactly those
output values with every quote character stripped. -/
theorem c3_success_returns_stripped_output (o : Oracle)
    (disk d2 : List (String × List Nat)) (c r w : String)
    (out : List (String × String)) (hne : ¬(c = "" ∨ r = "" ∨ w = ""))
    (hn : o.newErr = none) (hs : o.setEnvVarsErr = none)
    (hcf : copyFile o disk assetPath (w ++ "/setup-hcp-vpc.tf") = .ok d2)
    (hi : o.initErr = none) (hp : o.planErr = none) (ha : o.applyErr = none)
    (ho : o.outputRes = .ok out) :
    (createHostedControlPlaneVPC o disk c r w).res =
      .ok ⟨stripQuotes (getOutput out "cluster-private-subnet"),
           stripQuotes (getOutput out "cluster-public-subnet"),
           stripQuotes (getOutput out "node-private-subnet")⟩ := by
  rw [create_eq_ok o disk d2 c r w out hne hn hs hcf hi hp ha ho]

/-- Witness for C3: the quoted CIDR output values come back unquoted. -/
theorem c3_success_returns_stripped_output_witness :
    (createHostedControlPlaneVPC okOracle [] "osd" "us-east-1" "/tmp").res =
      .ok ⟨"10.0.1.0/24", "10.0.2.0/24", "10.0.3.0/24"⟩ := by
  rw [c3_success_returns_stripped_output okOracle []
    (("/tmp" ++ "/setup-hcp-vpc.tf", hcpBytes) :: []) "osd" "us-east-1" "/tmp"
    quotedOut (by decide) rfl rfl rfl rfl rfl rfl rfl]
  rfl

/-- C4: in create, the failure of any step aborts all remaining steps and
the call returns an error tagged "create" wrapping the underlying cause; in
particular when apply fails, output is never invoked. Each conjunct fixes
one failing step and gives the exact result and trace of the call. -/
theorem c4_create_failure_aborts (o : Oracle) (disk : List (String × List Nat))
    (c r w : String) (hne : ¬(c = "" ∨ r = "" ∨ w = "")) :
    (∀ e, o.newErr = some e →
      (createHostedControlPlaneVPC o disk c r w).res =
        .error ⟨"create", "failed to construct terraform runner: " ++ e⟩ ∧
      (createHostedControlPlaneVPC o disk c r w).trace = [.newRunner]) ∧
    (∀ e, o.newErr = none → o.setEnvVarsErr = some e →
      (createHostedControlPlaneVPC o disk c r w).res =
        .error ⟨"create",
          "failed to set terraform runner aws credentials (env vars): " ++ e⟩ ∧
      (createHostedControlPlaneVPC o disk c r w).trace =
        [.newRunner, .setEnvVars]) ∧
    (∀ e, o.newErr = none → o.setEnvVarsErr = none →
      copyFile o disk assetPath (w ++ "/setup-hcp-vpc.tf") = .error e →
      (createHostedControlPlaneVPC o disk c r w).res =
        .error ⟨"create",
          "failed to copy terraform file to working directory: " ++ e⟩ ∧
      (createHostedControlPlaneVPC o disk c r w).trace =
        [.newRunner, .setEnvVars,
         .copyTemplate assetPath (w ++ "/setup-hcp-vpc.tf"),
         .uninstallStep o.uninstallErr]) ∧
    (∀ e d2, o.newErr = none → o.setEnvVarsErr = none →
      copyFile o disk assetPath (w ++ "/setup-hcp-vpc.tf") = .ok d2 →
      o.initErr = some e →
      (createHostedControlPlaneVPC o disk c r w).res =
        .error ⟨"create", "failed to perform terraform init: " ++ e⟩ ∧
      (createHostedControlPlaneVPC o disk c r w).trace =
        [.newRunner, .setEnvVars,
         .copyTemplate assetPath (w ++ "/setup-hcp-vpc.tf"),
         .initStep, .uninstallStep o.uninstallErr]) ∧
    (∀ e d2, o.newErr = none → o.setEnvVarsErr = none →
      copyFile o disk assetPath (w ++ "/setup-hcp-vpc.tf") = .ok d2 →
      o.initErr = none → o.planErr = some e →
      (createHostedControlPlaneVPC o disk c r w).res =
        .error ⟨"create", "failed to perform terraform plan: " ++ e⟩ ∧
      (createHostedControlPlaneVPC o disk c r w).trace =
        [.newRunner, .setEnvVars,
         .copyTemplate assetPath (w ++ "/setup-hcp-vpc.tf"),
         .initStep, .planStep (tfVars c r), .uninstallStep o.uninstallErr]) ∧
    (∀ e d2, o.newErr = none → o.setEnvVarsErr = none →
      copyFile o disk assetPath (w ++ "/setup-hcp-vpc.tf") = .ok d2 →
      o.initErr = none → o.planErr = none → o.applyErr = some e →
      (createHostedControlPlaneVPC o disk c r w).res =
        .error ⟨"create", "failed to perform terraform apply: " ++ e⟩ ∧
      Event.outputStep ∉ (createHostedControlPlaneVPC o disk c r w).trace ∧
      (createHostedControlPlaneVPC o disk c r w).trace =
        [.newRunner, .setEnvVars,
         .copyTemplate assetPath (w ++ "/setup-hcp-vpc.tf"),
         .initStep, .planStep (tfVars c r), .applyStep,
         .uninstallStep o.uninstallErr]) ∧
    (∀ e d2, o.newErr = none → o.setEnvVarsErr = none →
      copyFile o disk assetPath (w ++ "/setup-hcp-vpc.tf") = .ok d2 →
      o.initErr = none → o.planErr = none → o.applyErr = none →
      o.outputRes = .error e →
      (createHostedControlPlaneVPC o disk c r w).res =
        .error ⟨"create", "failed to perform terraform output: " ++ e⟩) := by
  refine ⟨?_, ?_, ?_, ?_, ?_, ?_, ?_⟩
  · intro e hn
    rw [create_eq_newErr o disk c r w e hne hn]
    exact ⟨rfl, rfl⟩
  · intro e hn hs
    rw [create_eq_envErr o disk c r w e hne hn hs]
    exact ⟨rfl, rfl⟩
  · intro e hn hs hcf
    rw [create_eq_copyErr o disk c r w e hne hn hs hcf]
    exact ⟨rfl, rfl⟩
  · intro e d2 hn hs hcf hi
    rw [create_eq_initErr o disk d2 c r w e hne hn hs hcf hi]
    exact ⟨rfl, rfl⟩
  · intro e d2 hn hs hcf hi hp
    rw [create_eq_planErr o disk d2 c r w e hne hn hs hcf hi hp]
    exact ⟨rfl, rfl⟩
  · intro e d2 hn hs hcf hi hp ha
    rw [create_eq_applyErr o disk d2 c r w e hne hn hs hcf hi hp ha]
    refine ⟨rfl, ?_, rfl⟩
    simp
  · intro e d2 hn hs hcf hi hp ha ho
    rw [create_eq_outputErr o disk d2 c r w e hne hn hs hcf hi hp ha ho]

/-- Witness for C4: a failing apply yields the tagged wrapped error and no
output step, while cleanup still ran once. -/
theorem c4_create_failure_aborts_witness :
    (createHostedControlPlaneVPC applyFailOracle [] "osd" "us-east-1" "/tmp").res =
      .error ⟨"create", "failed to perform terraform apply: " ++ "apply boom"⟩ ∧
    Event.outputStep ∉
      (createHostedControlPlaneVPC applyFailOracle [] "osd" "us-east-1" "/tmp").trace ∧
    (createHostedControlPlaneVPC applyFailOracle [] "osd" "us-east-1" "/tmp").trace =
      [.newRunner, .setEnvVars,
       .copyTemplate assetPath ("/tmp" ++ "/setup-hcp-vpc.tf"),
       .initStep, .planStep (tfVars "osd" "us-east-1"), .applyStep,
       .uninstallStep none] :=
  (c4_create_failure_aborts applyFailOracle [] "osd" "us-east-1" "/tmp"
      (by decide)).2.2.2.2.2.1 "apply boom"
    (("/tmp" ++ "/setup-hcp-vpc.tf", hcpBytes) :: []) rfl rfl rfl rfl rfl rfl

/-- C5: on a successful create, the template asset is copied byte-for-byte
to workingDir/setup-hcp-vpc.tf, and only after the copy are init, plan,
apply and output invoked, in that order, each exactly once, followed only by
the deferred uninstall. -/
theorem c5_copy_before_tool_steps (o : Oracle) (disk : List (String × List Nat))
    (c r w : String) (bs : List Nat) (out : List (String × String))
    (hne : ¬(c = "" ∨ r = "" ∨ w = ""))
    (hn : o.newErr = none) (hs : o.setEnvVarsErr = none)
    (hfs : o.FS.lookup assetPath = some bs)
    (hcr : o.osCreateErr = none) (hio : o.ioCopyErr = none)
    (hi : o.initErr = none) (hp : o.planErr = none) (ha : o.applyErr = none)
    (ho : o.outputRes = .ok out) :
    (createHostedControlPlaneVPC o disk c r w).trace =
      [.newRunner, .setEnvVars,
       .copyTemplate assetPath (w ++ "/setup-hcp-vpc.tf"),
       .initStep, .planStep (tfVars c r), .applyStep, .outputStep,
       .uninstallStep o.uninstallErr] ∧
    (createHostedControlPlaneVPC o disk c r w).disk.lookup
      (w ++ "/setup-hcp-vpc.tf") = some bs := by
  have hcf := copyFile_eq_ok o disk assetPath (w ++ "/setup-hcp-vpc.tf") bs hfs hcr hio
  rw [create_eq_ok o disk ((w ++ "/setup-hcp-vpc.tf", bs) :: disk) c r w out
    hne hn hs hcf hi hp ha ho]
  refine ⟨rfl, ?_⟩
  simp [List.lookup]

/-- Witness for C5 on a fully successful concrete run. -/
theorem c5_copy_before_tool_steps_witness :
    (createHostedControlPlaneVPC okOracle [] "osd" "us-east-1" "/tmp").trace =
      [.newRunner, .setEnvVars,
       .copyTemplate assetPath ("/tmp" ++ "/setup-hcp-vpc.tf"),
       .initStep, .planStep (tfVars "osd" "us-east-1"), .applyStep, .outputStep,
       .uninstallStep none] ∧
    (createHostedControlPlaneVPC okOracle [] "osd" "us-east-1" "/tmp").disk.lookup
      ("/tmp" ++ "/setup-hcp-vpc.tf") = some hcpBytes :=
  c5_copy_before_tool_steps okOracle [] "osd" "us-east-1" "/tmp" hcpBytes
    quotedOut (by decide) rfl rfl rfl rfl rfl rfl rfl rfl rfl

/-- C6: destroy with non-empty arguments runs init and then the destroy
step parameterized by exactly the aws_region and cluster_name variables;
if the destroy step fails the call returns an error tagged "delete"
wrapping that failure, and only the deferred cleanup follows. -/
theorem c6_destroy_workflow (o : Oracle) (c r w : String)
    (hne : ¬(c = "" ∨ r = "" ∨ w = ""))
    (hn : o.newErr = none) (hs : o.setEnvVarsErr = none)
    (hi : o.initErr = none) :
    (o.destroyErr = none →
      (deleteHostedControlPlaneVPC o c r w).trace =
        [.newRunner, .setEnvVars, .initStep,
         .destroyStep ["aws_region=" ++ r, "cluster_name=" ++ c],
         .uninstallStep o.uninstallErr] ∧
      (deleteHostedControlPlaneVPC o c r w).res = .ok ()) ∧
    (∀ e, o.destroyErr = some e →
      (deleteHostedControlPlaneVPC o c r w).trace =
        [.newRunner, .setEnvVars, .initStep,
         .destroyStep ["aws_region=" ++ r, "cluster_name=" ++ c],
         .uninstallStep o.uninstallErr] ∧
      (deleteHostedControlPlaneVPC o c r w).res =
        .error ⟨"delete", "failed to perform terraform destroy: " ++ e⟩) := by
  constructor
  · intro hd
    rw [delete_eq_ok o c r w hne hn hs hi hd]
    exact ⟨rfl, rfl⟩
  · intro e hd
    rw [delete_eq_destroyErr o c r w e hne hn hs hi hd]
    exact ⟨rfl, rfl⟩

/-- Witness for C6: a failing destroy step on concrete inputs. -/
theorem c6_destroy_workflow_witness :
    (deleteHostedControlPlaneVPC destroyFailOracle "osd" "us-east-1" "/tmp").trace =
      [.newRunner, .setEnvVars, .initStep,
       .destroyStep ["aws_region=" ++ "us-east-1", "cluster_name=" ++ "osd"],
       .uninstallStep none] ∧
    (deleteHostedControlPlaneVPC destroyFailOracle "osd" "us-east-1" "/tmp").res =
      .error ⟨"delete", "failed to perform terraform destroy: " ++ "destroy boom"⟩ :=
  (c6_destroy_workflow destroyFailOracle "osd" "us-east-1" "/tmp"
    (by decide) rfl rfl rfl).2 "destroy boom" rfl

/-- C7: every error returned by create carries action "create", every error
returned by destroy carries action "delete", and the rendered message is
always the action, " hcp cluster vpc failed: ", then the cause. -/
theorem c7_error_kind_and_format (o : Oracle) (disk : List (String × List Nat))
    (c r w : String) (err : hcpVPCError) :
    ((createHostedControlPlaneVPC o disk c r w).res = .error err →
      err.action = "create" ∧
      err.message = "create hcp cluster vpc failed: " ++ err.err) ∧
    ((deleteHostedControlPlaneVPC o c r w).res = .error err →
      err.action = "delete" ∧
      err.message = "delete hcp cluster vpc failed: " ++ err.err) := by
  constructor
  · intro h
    by_cases hne : c = "" ∨ r = "" ∨ w = ""
    · rw [create_eq_empty o disk c r w hne] at h
      exact error_inj_facts _ _ err h
    · rcases hn : o.newErr with _ | e
      · rcases hs : o.setEnvVarsErr with _ | e
        · rcases hcf : copyFile o disk assetPath (w ++ "/setup-hcp-vpc.tf") with e | d2
          · rw [create_eq_copyErr o disk c r w e hne hn hs hcf] at h
            exact error_inj_facts _ _ err h
          · rcases hi : o.initErr with _ | e
            · rcases hp : o.planErr with _ | e
              · rcases ha : o.applyErr with _ | e
                · rcases ho : o.outputRes with e | out
                  · rw [create_eq_outputErr o disk d2 c r w e hne hn hs hcf hi hp ha ho] at h
                    exact error_inj_facts _ _ err h
                  · rw [create_eq_ok o disk d2 c r w out hne hn hs hcf hi hp ha ho] at h
                    simp at h
                · rw [create_eq_applyErr o disk d2 c r w e hne hn hs hcf hi hp ha] at h
                  exact error_inj_facts _ _ err h
              · rw [create_eq_planErr o disk d2 c r w e hne hn hs hcf hi hp] at h
                exact error_inj_facts _ _ err h
            · rw [create_eq_initErr o disk d2 c r w e hne hn hs hcf hi] at h
              exact error_inj_facts _ _ err h
        · rw [create_eq_envErr o disk c r w e hne hn hs] at h
          exact error_inj_facts _ _ err h
      · rw [create_eq_newErr o disk c r w e hne hn] at h
        exact error_inj_facts _ _ err h
  · intro h
    by_cases hne : c = "" ∨ r = "" ∨ w = ""
    · rw [delete_eq_empty o c r w hne] at h
      exact error_inj_facts _ _ err h
    · rcases hn : o.newErr with _ | e
      · rcases hs : o.setEnvVarsErr with _ | e
        · rcases hi : o.initErr with _ | e
          · rcases hd : o.destroyErr with _ | e
            · rw [delete_eq_ok o c r w hne hn hs hi hd] at h
              simp at h
            · rw [delete_eq_destroyErr o c r w e hne hn hs hi hd] at h
              exact error_inj_facts _ _ err h
          · rw [delete_eq_initErr o c r w e hne hn hs hi] at h
            exact error_inj_facts _ _ err h
        · rw [delete_eq_envErr o c r w e hne hn hs] at h
          exact error_inj_facts _ _ err h
      · rw [delete_eq_newErr o c r w e hne hn] at h
        exact error_inj_facts _ _ err h

/-- Witness for C7 at the empty-parameter error of create. -/
theorem c7_error_kind_and_format_witness :
    (⟨"create", "one or more parameters is empty"⟩ : hcpVPCError).action = "create" ∧
    (⟨"create", "one or more parameters is empty"⟩ : hcpVPCError).message =
      "create hcp cluster vpc failed: " ++ "one or more parameters is empty" :=
  (c7_error_kind_and_format okOracle [] "" "us-east-1" "/tmp/w"
    ⟨"create", "one or more parameters is empty"⟩).1 rfl

/-- Helper: a copy driven by an oracle with the same file system and the
same file-call outcomes gives the same result. -/
theorem copyFile_congr (o q : Oracle) (disk : List (String × List Nat))
    (src dest : String)
    (h3 : q.FS = o.FS) (h4 : q.osCreateErr = o.osCreateErr)
    (h5 : q.ioCopyErr = o.ioCopyErr) :
    copyFile q disk src dest = copyFile o disk src dest := by
  unfold copyFile
  rw [h3, h4, h5]

/-- Helper: the result and the disk of create depend only on the oracle
fields other than the uninstall outcome. -/
theorem create_res_disk_congr (o q : Oracle) (disk : List (String × List Nat))
    (c r w : String)
    (h1 : q.newErr = o.newErr) (h2 : q.setEnvVarsErr = o.setEnvVarsErr)
    (h3 : q.FS = o.FS) (h4 : q.osCreateErr = o.osCreateErr)
    (h5 : q.ioCopyErr = o.ioCopyErr) (h6 : q.initErr = o.initErr)
    (h7 : q.planErr = o.planErr) (h8 : q.applyErr = o.applyErr)
    (h9 : q.outputRes = o.outputRes) :
    (createHostedControlPlaneVPC o disk c r w).res =
      (createHostedControlPlaneVPC q disk c r w).res ∧
    (createHostedControlPlaneVPC o disk c r w).disk =
      (createHostedControlPlaneVPC q disk c r w).disk := by
  have hcfc := copyFile_congr o q disk assetPath (w ++ "/setup-hcp-vpc.tf") h3 h4 h5
  by_cases hne : c = "" ∨ r = "" ∨ w = ""
  · rw [create_eq_empty o disk c r w hne, create_eq_empty q disk c r w hne]
    exact ⟨rfl, rfl⟩
  · rcases hn : o.newErr with _ | e
    · rcases hs : o.setEnvVarsErr with _ | e
      · rcases hcf : copyFile o disk assetPath (w ++ "/setup-hcp-vpc.tf") with e | d2
        · rw [create_eq_copyErr o disk c r w e hne hn hs hcf,
            create_eq_copyErr q disk c r w e hne (h1.trans hn) (h2.trans hs)
              (hcfc.trans hcf)]
          exact ⟨rfl, rfl⟩
        · rcases hi : o.initErr with _ | e
          · rcases hp : o.planErr with _ | e
            · rcases ha : o.applyErr with _ | e
              · rcases ho : o.outputRes with e | out
                · rw [create_eq_outputErr o disk d2 c r w e hne hn hs hcf hi hp ha ho,
                    create_eq_outputErr q disk d2 c r w e hne (h1.trans hn)
                      (h2.trans hs) (hcfc.trans hcf) (h6.trans hi) (h7.trans hp)
                      (h8.trans ha) (h9.trans ho)]
                  exact ⟨rfl, rfl⟩
                · rw [create_eq_ok o disk d2 c r w out hne hn hs hcf hi hp ha ho,
                    create_eq_ok q disk d2 c r w out hne (h1.trans hn)
                      (h2.trans hs) (hcfc.trans hcf) (h6.trans hi) (h7.trans hp)
                      (h8.trans ha) (h9.trans ho)]
                  exact ⟨rfl, rfl⟩
              · rw [create_eq_applyErr o disk d2 c r w e hne hn hs hcf hi hp ha,
                  create_eq_applyErr q disk d2 c r w e hne (h1.trans hn)
                    (h2.trans hs) (hcfc.trans hcf) (h6.trans hi) (h7.trans hp)
                    (h8.trans ha)]
                exact ⟨rfl, rfl⟩
            · rw [create_eq_planErr o disk d2 c r w e hne hn hs hcf hi hp,
                create_eq_planErr q disk d2 c r w e hne (h1.trans hn)
                  (h2.trans hs) (hcfc.trans hcf) (h6.trans hi) (h7.trans hp)]
              exact ⟨rfl, rfl⟩
          · rw [create_eq_initErr o disk d2 c r w e hne hn hs hcf hi,
              create_eq_initErr q disk d2 c r w e hne (h1.trans hn)
                (h2.trans hs) (hcfc.trans hcf) (h6.trans hi)]
            exact ⟨rfl, rfl⟩
      · rw [create_eq_envErr o disk c r w e hne hn hs,
          create_eq_envErr q disk c r w e hne (h1.trans hn) (h2.trans hs)]
        exact ⟨rfl, rfl⟩
    · rw [create_eq_newErr o disk c r w e hne hn,
        create_eq_newErr q disk c r w e hne (h1.trans hn)]
      exact ⟨rfl, rfl⟩

/-- Helper: the result of destroy depends only on the oracle fields other
than the uninstall outcome. -/
theorem delete_res_congr (o q : Oracle) (c r w : String)
    (h1 : q.newErr = o.newErr) (h2 : q.setEnvVarsErr = o.setEnvVarsErr)
    (h6 : q.initErr = o.initErr) (hd9 : q.destroyErr = o.destroyErr) :
    (deleteHostedControlPlaneVPC o c r w).res =
      (deleteHostedControlPlaneVPC q c r w).res := by
  by_cases hne : c = "" ∨ r = "" ∨ w = ""
  · rw [delete_eq_empty o c r w hne, delete_eq_empty q c r w hne]
  · rcases hn : o.newErr with _ | e
    · rcases hs : o.setEnvVarsErr with _ | e
      · rcases hi : o.initErr with _ | e
        · rcases hd : o.destroyErr with _ | e
          · rw [delete_eq_ok o c r w hne hn hs hi hd,
              delete_eq_ok q c r w hne (h1.trans hn) (h2.trans hs)
                (h6.trans hi) (hd9.trans hd)]
          · rw [delete_eq_destroyErr o c r w e hne hn hs hi hd,
              delete_eq_destroyErr q c r w e hne (h1.trans hn) (h2.trans hs)
                (h6.trans hi) (hd9.trans hd)]
        · rw [delete_eq_initErr o c r w e hne hn hs hi,
            delete_eq_initErr q c r w e hne (h1.trans hn) (h2.trans hs)
              (h6.trans hi)]
      · rw [delete_eq_envErr o c r w e hne hn hs,
          delete_eq_envErr q c r w e hne (h1.trans hn) (h2.trans hs)]
    · rw [delete_eq_newErr o c r w e hne hn,
        delete_eq_newErr q c r w e hne (h1.trans hn)]

/-- C8: when the cleanup (uninstall) call fails, that failure is discarded:
the returned result (and the disk left behind by create) are identical to
those of the same call with a succeeding cleanup. -/
theorem c8_cleanup_failure_discarded (o : Oracle) (disk : List (String × List Nat))
    (c r w e : String) (_hu : o.uninstallErr = some e) :
    (createHostedControlPlaneVPC o disk c r w).res =
      (createHostedControlPlaneVPC { o with uninstallErr := none } disk c r w).res ∧
    (createHostedControlPlaneVPC o disk c r w).disk =
      (createHostedControlPlaneVPC { o with uninstallErr := none } disk c r w).disk ∧
    (deleteHostedControlPlaneVPC o c r w).res =
      (deleteHostedControlPlaneVPC { o with uninstallErr := none } c r w).res :=
  ⟨(create_res_disk_congr o { o with uninstallErr := none } disk c r w
      rfl rfl rfl rfl rfl rfl rfl rfl rfl).1,
   (create_res_disk_congr o { o with uninstallErr := none } disk c r w
      rfl rfl rfl rfl rfl rfl rfl rfl rfl).2,
   delete_res_congr o { o with uninstallErr := none } c r w rfl rfl rfl rfl⟩

/-- Witness for C8 with a concrete failing uninstall. -/
theorem c8_cleanup_failure_discarded_witness :
    (createHostedControlPlaneVPC uninstallFailOracle [] "osd" "us-east-1" "/tmp").res =
      (createHostedControlPlaneVPC { uninstallFailOracle with uninstallErr := none }
        [] "osd" "us-east-1" "/tmp").res ∧
    (createHostedControlPlaneVPC uninstallFailOracle [] "osd" "us-east-1" "/tmp").disk =
      (createHostedControlPlaneVPC { uninstallFailOracle with uninstallErr := none }
        [] "osd" "us-east-1" "/tmp").disk ∧
    (deleteHostedControlPlaneVPC uninstallFailOracle "osd" "us-east-1" "/tmp").res =
      (deleteHostedControlPlaneVPC { uninstallFailOracle with uninstallErr := none }
        "osd" "us-east-1" "/tmp").res :=
  c8_cleanup_failure_discarded uninstallFailOracle [] "osd" "us-east-1" "/tmp"
    "uninstall boom" rfl

/-- C9: on a run where every tool step succeeds but the output map lacks
one or more of the three subnet keys, create still returns success, with
the field of each missing key set to the empty string. -/
theorem c9_missing_output_keys (o : Oracle) (disk d2 : List (String × List Nat))
    (c r w : String) (out : List (String × String))
    (hne : ¬(c = "" ∨ r = "" ∨ w = ""))
    (hn : o.newErr = none) (hs : o.setEnvVarsErr = none)
    (hcf : copyFile o disk assetPath (w ++ "/setup-hcp-vpc.tf") = .ok d2)
    (hi : o.initErr = none) (hp : o.planErr = none) (ha : o.applyErr = none)
    (ho : o.outputRes = .ok out) :
    ∃ v, (createHostedControlPlaneVPC o disk c r w).res = .ok v ∧
      (out.lookup "cluster-private-subnet" = none → v.privateSubnet = "") ∧
      (out.lookup "cluster-public-subnet" = none → v.publicSubnet = "") ∧
      (out.lookup "node-private-subnet" = none → v.nodePrivateSubnet = "") := by
  refine ⟨⟨stripQuotes (getOutput out "cluster-private-subnet"),
           stripQuotes (getOutput out "cluster-public-subnet"),
           stripQuotes (getOutput out "node-private-subnet")⟩, ?_, ?_, ?_, ?_⟩
  · exact congrArg CreateResult.res
      (create_eq_ok o disk d2 c r w out hne hn hs hcf hi hp ha ho)
  · intro hk
    unfold getOutput
    rw [hk]
    rfl
  · intro hk
    unfold getOutput
    rw [hk]
    rfl
  · intro hk
    unfold getOutput
    rw [hk]
    rfl

/-- Witness for C9 with an output map holding none of the keys. -/
theorem c9_missing_output_keys_witness :
    ∃ v, (createHostedControlPlaneVPC emptyOutOracle [] "osd" "us-east-1" "/tmp").res =
        .ok v ∧
      (([] : List (String × String)).lookup "cluster-private-subnet" = none →
        v.privateSubnet = "") ∧
      (([] : List (String × String)).lookup "cluster-public-subnet" = none →
        v.publicSubnet = "") ∧
      (([] : List (String × String)).lookup "node-private-subnet" = none →
        v.nodePrivateSubnet = "") :=
  c9_missing_output_keys emptyOutOracle [] (("/tmp" ++ "/setup-hcp-vpc.tf", hcpBytes) :: [])
    "osd" "us-east-1" "/tmp" [] (by decide) rfl rfl rfl rfl rfl rfl rfl

/-- C10: whenever create succeeds, none of the three returned fields
contains a quote character: the stripping removes every occurrence,
interior quotes included. -/
theorem c10_no_quote_in_result (o : Oracle) (disk : List (String × List Nat))
    (c r w : String) (v : vpc)
    (h : (createHostedControlPlaneVPC o disk c r w).res = .ok v) :
    quoteChar ∉ v.privateSubnet.data ∧ quoteChar ∉ v.publicSubnet.data ∧
      quoteChar ∉ v.nodePrivateSubnet.data := by
  by_cases hne : c = "" ∨ r = "" ∨ w = ""
  · rw [create_eq_empty o disk c r w hne] at h
    simp at h
  · rcases hn : o.newErr with _ | e
    · rcases hs : o.setEnvVarsErr with _ | e
      · rcases hcf : copyFile o disk assetPath (w ++ "/setup-hcp-vpc.tf") with e | d2
        · rw [create_eq_copyErr o disk c r w e hne hn hs hcf] at h
          simp at h
        · rcases hi : o.initErr with _ | e
          · rcases hp : o.planErr with _ | e
            · rcases ha : o.applyErr with _ | e
              · rcases ho : o.outputRes with e | out
                · rw [create_eq_outputErr o disk d2 c r w e hne hn hs hcf hi hp ha ho] at h
                  simp at h
                · rw [create_eq_ok o disk d2 c r w out hne hn hs hcf hi hp ha ho] at h
                  obtain rfl := Except.ok.inj h
                  exact ⟨stripQuotes_no_quote _, stripQuotes_no_quote _,
                    stripQuotes_no_quote _⟩
              · rw [create_eq_applyErr o disk d2 c r w e hne hn hs hcf hi hp ha] at h
                simp at h
            · rw [create_eq_planErr o disk d2 c r w e hne hn hs hcf hi hp] at h
              simp at h
          · rw [create_eq_initErr o disk d2 c r w e hne hn hs hcf hi] at h
            simp at h
      · rw [create_eq_envErr o disk c r w e hne hn hs] at h
        simp at h
    · rw [create_eq_newErr o disk c r w e hne hn] at h
      simp at h

/-- Witness for C10 on an output value with interior quotes. -/
theorem c10_no_quote_in_result_witness :
    quoteChar ∉ ("10.0.1" : String).data ∧ quoteChar ∉ ("" : String).data ∧
      quoteChar ∉ ("" : String).data :=
  c10_no_quote_in_result interiorQuoteOracle [] "osd" "us-east-1" "/tmp"
    ⟨"10.0.1", "", ""⟩ rfl

end HcpVpc
